import Mathlib

/-!
Verification of the proxy process supervisor (`src-tauri/src/proxy_runner.rs`).

The supervisor coordinates with a file-backed Config Store
(`proxy_storage`: `generate_proxy_id`, `get_proxy_config`,
`save_proxy_config`, `delete_proxy_config`, `list_proxy_configs`,
`is_process_running`, `ProxyConfig`) and with the operating system
(process spawn, TCP connect, log files).  The store and the OS are
shallow-embedded: the store as an association list keyed by `id`, the
OS as an oracle (`Env`) giving the outcome of each external call.
The Unix code path of `proxy_runner.rs` is the one embedded
(`max_attempts = 80`; the Windows path differs only in constants and
spawn flags).
-/

/-- Modelled from the spec: the `ProxyConfig` record of the missing
`proxy_storage` module.  Fields are those `proxy_runner.rs` reads and
writes: `id`, `upstream`, `local_port` (requested port at creation,
overwritten by the worker with the bound port), `local_url` (written by
the worker after binding), `pid` (written by the supervisor after
spawn), `profile_id`. -/
structure ProxyConfig where
  id : String
  upstream : String
  local_port : Option Nat
  local_url : Option String
  pid : Option Nat
  profile_id : Option String
deriving Repr, DecidableEq

/-- Modelled from the spec: `ProxyConfig::new(id, upstream, local_port)`
creates the initial record; port/url/pid fields that the worker or the
supervisor fill in later start out absent. -/
def ProxyConfig.new (id : String) (upstream : String) (local_port : Option Nat) : ProxyConfig :=
  { id := id, upstream := upstream, local_port := local_port,
    local_url := none, pid := none, profile_id := none }

/-- Modelled from the spec: `with_profile_id` sets the optional link to
the calling browser profile. -/
def ProxyConfig.with_profile_id (c : ProxyConfig) (p : Option String) : ProxyConfig :=
  { c with profile_id := p }

/-- The Config Store: one persisted record per managed worker, keyed by
`id`.  Modelled from the spec as the documented get/save/delete/list
interface over a finite map (association list). -/
abbrev Store := List ProxyConfig

/-- Modelled from the spec: `get_proxy_config` returns the record keyed
by `id`, if any. -/
def get_proxy_config (s : Store) (id : String) : Option ProxyConfig :=
  s.find? (fun c => c.id == id)

/-- Modelled from the spec: `save_proxy_config` persists a record,
replacing the record with the same `id` when one exists. -/
def save_proxy_config : Store → ProxyConfig → Store
  | [], c => [c]
  | c0 :: rest, c => if c0.id = c.id then c :: rest else c0 :: save_proxy_config rest c

/-- Modelled from the spec: `delete_proxy_config` removes the record
keyed by `id`. -/
def delete_proxy_config (s : Store) (id : String) : Store :=
  s.filter (fun c => !(c.id == id))

/-- Modelled from the spec: `list_proxy_configs` enumerates all
persisted records. -/
def list_proxy_configs (s : Store) : List ProxyConfig := s

/-- The in-memory `PROXY_PROCESSES` registry: a mutex-guarded map from
worker identifier to last-known process id. -/
abbrev Registry := List (String × Nat)

/-- `processes.insert(id, pid)` on the registry map. -/
def registry_insert (r : Registry) (id : String) (pid : Nat) : Registry :=
  (id, pid) :: r.filter (fun p => !(p.1 == id))

/-- `processes.remove(id)` on the registry map. -/
def registry_remove (r : Registry) (id : String) : Registry :=
  r.filter (fun p => !(p.1 == id))

/-- Lookup in the registry map. -/
def registry_lookup (r : Registry) (id : String) : Option Nat :=
  (r.find? (fun p => p.1 == id)).map (fun p => p.2)

/-- The supervisor-visible mutable state: the persisted Config Store and
the in-memory process Registry. -/
structure SupState where
  store : Store
  registry : Registry
deriving Repr, DecidableEq

/-- Observable actions the supervisor performs, recorded in order; used
to state ordering and frame properties of `start` and `stop`. -/
inductive Event where
  | genId (id : String)
  | saveRecord (c : ProxyConfig)
  | spawn (pid : Nat)
  | registryInsert (id : String) (pid : Nat)
  | registryRemove (id : String)
  | pollRun
  | kill (pid : Nat)
  | sleepGrace
  | deleteRecord (id : String)
deriving Repr, DecidableEq

/-- Oracle for the external world during one `start` call: the outcome
of `cmd.spawn()`, what `get_proxy_config(&id)` returns at poll attempt
`t` (the worker updates the record out-of-band), whether the TCP
connect to a port succeeds at attempt `t`, `is_process_running`, and
the per-worker log file (absent, unreadable, or its contents). -/
structure Env where
  spawnResult : Except String Nat
  workerView : Nat → Option ProxyConfig
  connectOk : Nat → Nat → Bool
  processRunning : Nat → Bool
  logFile : Option (Except String String)

/-! ### Rust `str::lines` and the timeout diagnostic -/

/-- Split a character list at every newline, keeping empty segments. -/
def splitNl : List Char → List (List Char)
  | [] => [[]]
  | c :: cs =>
    if c = '\n' then [] :: splitNl cs
    else
      match splitNl cs with
      | [] => [[c]]
      | l :: ls => (c :: l) :: ls

/-- Drop the carriage return left at the end of a segment that was
terminated by a `\n` split, as Rust `lines` does for `\r\n`. -/
def stripCr (l : List Char) : List Char :=
  if l.getLast? = some '\r' then l.dropLast else l

/-- Rust `s.lines().collect()`: split at every `\n`, strip the `\r`
preceding each such split (so `\r\n` also terminates a line), the
final line ending being optional.  A trailing `\r` not followed by a
`\n` belongs to the last line and is kept: `"foo\r\nbar\n\nbaz\r"`
yields `foo`, `bar`, an empty line and `baz\r`. -/
def rustLines (s : String) : List String :=
  let segs := splitNl s.data
  let init := segs.dropLast.map (fun l => String.mk (stripCr l))
  match segs.getLast? with
  | some [] => init
  | some l => init ++ [String.mk l]
  | none => init

/-- `lines.iter().rev().take(n).rev()`: the last `n` elements. -/
def last_lines_of (lines : List String) (n : Nat) : List String :=
  (lines.reverse.take n).reverse

/-- The per-identifier log file path on Unix:
`/tmp/foxia-proxy-<id>.log`. -/
def proxy_log_path (id : String) : String :=
  "/tmp/foxia-proxy-" ++ id ++ ".log"

/-- Rust `Debug` formatting of an `Option<String>`. -/
def debug_opt_string : Option String → String
  | none => "None"
  | some s => "Some(\"" ++ s ++ "\")"

/-- Rust `Debug` formatting of an `Option` of an integer. -/
def debug_opt_nat : Option Nat → String
  | none => "None"
  | some n => "Some(" ++ toString n ++ ")"

/-- The `log_content` part of the timeout error: the last 10 lines of
the worker log when the file exists and is readable, otherwise a
non-fatal note. -/
def log_diagnostic (logFile : Option (Except String String)) (path : String) : String :=
  match logFile with
  | some (Except.ok s) =>
    "\n--- Last 10 lines of worker log ---\n" ++
      String.intercalate "\n" (last_lines_of (rustLines s) 10) ++
      "\n--- End of log ---"
  | some (Except.error e) => " (failed to read log file: " ++ e ++ ")"
  | none => " (log file not found at \"" ++ path ++ "\")"

/-- The error message built when the readiness poll times out after
`attempts` attempts: re-fetch the record, report its fields and whether
the process is still running, and append the log diagnostic; when even
the record is gone, report that instead. -/
def timeout_message (env : Env) (id : String) (attempts : Nat) : String :=
  match env.workerView attempts with
  | some config =>
    "Proxy worker failed to start in time after " ++ toString attempts ++
      " attempts. Config: id=" ++ config.id ++
      ", local_url=" ++ debug_opt_string config.local_url ++
      ", local_port=" ++ debug_opt_nat config.local_port ++
      ", pid=" ++ debug_opt_nat config.pid ++
      ", process_running=" ++ toString ((config.pid.map env.processRunning).getD false) ++
      log_diagnostic env.logFile (proxy_log_path id)
  | none => "Proxy worker failed to start in time. Config not found for id: " ++ id

/-! ### The readiness poller -/

/-- One iteration's readiness check at attempt `t`: re-fetch the record;
if `local_url` is set and non-empty and `local_port` is set, probe the
port with a TCP connect; on a successful connect the fetched record is
the success value. -/
def poll_ready (env : Env) (t : Nat) : Option ProxyConfig :=
  match env.workerView t with
  | some cfg =>
    match cfg.local_url with
    | some url =>
      if url = "" then none
      else
        match cfg.local_port with
        | some port => if env.connectOk t port then some cfg else none
        | none => none
    | none => none
  | none => none

/-- The polling loop, entered with counter `attempts` and `fuel`
remaining iterations after this one.  Mirrors the source loop: check
readiness, then increment the counter and fail with the diagnostic
message once `attempts + 1` reaches the budget.  Called with
`attempts = 0` and `fuel = max_attempts - 1`, so the error reports
exactly `max_attempts` attempts. -/
def poll_go (env : Env) (id : String) : Nat → Nat → Except String ProxyConfig
  | attempts, 0 =>
    match poll_ready env attempts with
    | some cfg => Except.ok cfg
    | none => Except.error (timeout_message env id (attempts + 1))
  | attempts, fuel + 1 =>
    match poll_ready env attempts with
    | some cfg => Except.ok cfg
    | none => poll_go env id (attempts + 1) fuel

/-- The Unix readiness budget: 80 poll attempts (8 s). -/
def max_attempts_unix : Nat := 80

/-! ### The Lifecycle API -/

/-- `start_proxy_process_with_profile` (Unix path).  `id` is the fresh
identifier produced by `generate_proxy_id`.  Returns the call's result,
the supervisor-visible state after the supervisor's own writes, and the
ordered trace of supervisor actions. -/
def start_proxy_process_with_profile (env : Env) (st : SupState) (id : String)
    (upstream_url : Option String) (port : Option Nat) (profile_id : Option String) :
    Except String ProxyConfig × SupState × List Event :=
  let upstream := upstream_url.getD "DIRECT"
  let local_port := port.getD 0
  let config := (ProxyConfig.new id upstream (some local_port)).with_profile_id profile_id
  let st1 : SupState := { st with store := save_proxy_config st.store config }
  match env.spawnResult with
  | Except.error e => (Except.error e, st1, [Event.genId id, Event.saveRecord config])
  | Except.ok pid =>
    let st2 : SupState := { st1 with registry := registry_insert st1.registry id pid }
    let config_with_pid : ProxyConfig := { config with pid := some pid }
    let st3 : SupState := { st2 with store := save_proxy_config st2.store config_with_pid }
    (poll_go env id 0 (max_attempts_unix - 1), st3,
      [Event.genId id, Event.saveRecord config, Event.spawn pid,
       Event.registryInsert id pid, Event.saveRecord config_with_pid, Event.pollRun])

/-- `start_proxy_process`: the profile-less wrapper. -/
def start_proxy_process (env : Env) (st : SupState) (id : String)
    (upstream_url : Option String) (port : Option Nat) :
    Except String ProxyConfig × SupState × List Event :=
  start_proxy_process_with_profile env st id upstream_url port none

/-- `stop_proxy_process`: look up the record; when present with a
process id, send the kill signal, wait the grace period, remove the
registry entry, delete the record and return `true`; otherwise fall
through to `Ok(false)`. -/
def stop_proxy_process (st : SupState) (id : String) :
    Except String Bool × SupState × List Event :=
  match get_proxy_config st.store id with
  | some config =>
    match config.pid with
    | some pid =>
      (Except.ok true,
       { store := delete_proxy_config st.store id,
         registry := registry_remove st.registry id },
       [Event.kill pid, Event.sleepGrace, Event.registryRemove id, Event.deleteRecord id])
    | none => (Except.ok false, st, [])
  | none => (Except.ok false, st, [])

/-- The fan-out of `stop_all_proxy_processes` over a snapshot of the
record list; each `stop` outcome is discarded (`let _ = ...`). -/
def stop_all_go : List ProxyConfig → SupState → SupState × List Event
  | [], st => (st, [])
  | c :: rest, st =>
    let r := stop_proxy_process st c.id
    let res := stop_all_go rest r.2.1
    (res.1, r.2.2 ++ res.2)

/-- `stop_all_proxy_processes`: enumerate all persisted records, call
`stop` on each, ignore individual failures, return `Ok(())`. -/
def stop_all_proxy_processes (st : SupState) : Except String Unit × SupState × List Event :=
  let res := stop_all_go (list_proxy_configs st.store) st
  (Except.ok (), res.1, res.2)

/-- `needle` occurs contiguously inside `hay`. -/
def substring_of (needle hay : String) : Prop :=
  ∃ l r, hay = l ++ needle ++ r

/-! ### Store and registry lemmas -/

theorem get_save_self (s : Store) (c : ProxyConfig) :
    get_proxy_config (save_proxy_config s c) c.id = some c := by
  induction s with
  | nil => simp [get_proxy_config, save_proxy_config]
  | cons c0 rest ih =>
    by_cases h : c0.id = c.id
    · simp [get_proxy_config, save_proxy_config, h]
    · simpa [get_proxy_config, save_proxy_config, h] using ih

theorem get_delete_none (s : Store) (id : String) :
    get_proxy_config (delete_proxy_config s id) id = none := by
  simp +contextual [get_proxy_config, delete_proxy_config, List.find?_eq_none,
    List.mem_filter]

theorem registry_lookup_insert (r : Registry) (id : String) (pid : Nat) :
    registry_lookup (registry_insert r id pid) id = some pid := by
  simp [registry_lookup, registry_insert]

/-! ### Claims about `stop_proxy_process` -/

/-- Claim C3: for every identifier for which no Config Store record
exists, `stop` returns `Ok(false)` (the "nothing to stop" result),
changes no state, performs no action, and never returns an error. -/
theorem stop_unknown_nothing_to_stop (st : SupState) (id : String)
    (h : get_proxy_config st.store id = none) :
    stop_proxy_process st id = (Except.ok false, st, []) := by
  simp [stop_proxy_process, h]

theorem stop_unknown_nothing_to_stop_witness :
    get_proxy_config (SupState.mk [] []).store "w3" = none ∧
    stop_proxy_process (SupState.mk [] []) "w3" = (Except.ok false, SupState.mk [] [], []) :=
  ⟨rfl, stop_unknown_nothing_to_stop (SupState.mk [] []) "w3" rfl⟩

/-- Claim C10: when the record exists but its `pid` is `None`, `stop`
returns `Ok(false)`, sends no kill signal, waits no grace period,
leaves the registry untouched (empty event trace, unchanged state) and
does not delete the record, which remains retrievable. -/
theorem stop_pidless_noop (st : SupState) (id : String) (c : ProxyConfig)
    (h : get_proxy_config st.store id = some c) (hp : c.pid = none) :
    stop_proxy_process st id = (Except.ok false, st, []) ∧
    get_proxy_config (stop_proxy_process st id).2.1.store id = some c := by
  have heq : stop_proxy_process st id = (Except.ok false, st, []) := by
    simp [stop_proxy_process, h, hp]
  exact ⟨heq, by rw [heq]; exact h⟩

theorem stop_pidless_noop_witness :
    get_proxy_config (SupState.mk [ProxyConfig.new "w10" "DIRECT" (some 0)] []).store "w10" =
      some (ProxyConfig.new "w10" "DIRECT" (some 0)) ∧
    (ProxyConfig.new "w10" "DIRECT" (some 0)).pid = none ∧
    (stop_proxy_process (SupState.mk [ProxyConfig.new "w10" "DIRECT" (some 0)] []) "w10" =
        (Except.ok false, SupState.mk [ProxyConfig.new "w10" "DIRECT" (some 0)] [], []) ∧
      get_proxy_config
        (stop_proxy_process (SupState.mk [ProxyConfig.new "w10" "DIRECT" (some 0)] []) "w10").2.1.store
        "w10" = some (ProxyConfig.new "w10" "DIRECT" (some 0))) :=
  ⟨rfl, rfl,
    stop_pidless_noop (SupState.mk [ProxyConfig.new "w10" "DIRECT" (some 0)] []) "w10"
      (ProxyConfig.new "w10" "DIRECT" (some 0)) rfl rfl⟩

/-- Claim C8: `stop` is idempotent — after any `stop(id)`, a second
`stop(id)` returns the "nothing to stop" result, changes nothing and
performs no action, exactly like `stop` on an unknown identifier. -/
theorem stop_idempotent (st : SupState) (id : String) :
    stop_proxy_process (stop_proxy_process st id).2.1 id =
      (Except.ok false, (stop_proxy_process st id).2.1, []) := by
  rcases hg : get_proxy_config st.store id with _ | c
  · simp [stop_proxy_process, hg]
  · rcases hp : c.pid with _ | pid
    · simp [stop_proxy_process, hg, hp]
    · simp [stop_proxy_process, hg, hp, get_delete_none]

/-- Claim C2 counterexample: a record whose `pid` is `None` (the state
`start` persists before spawning) is not deleted by `stop` — after
`stop("p2")` the record is still retrievable, refuting "whenever a
record existed at the time of the call it is deleted before `stop`
returns". -/
theorem stop_existing_record_can_survive :
    get_proxy_config (SupState.mk [ProxyConfig.new "p2" "DIRECT" (some 0)] []).store "p2" =
      some (ProxyConfig.new "p2" "DIRECT" (some 0)) ∧
    get_proxy_config
        (stop_proxy_process (SupState.mk [ProxyConfig.new "p2" "DIRECT" (some 0)] []) "p2").2.1.store
        "p2" ≠ none := by
  exact ⟨rfl, by decide⟩

/-- Claim C2 (amended): whenever a record for `id` with a populated
process id exists at the time of the call, `stop(id)` deletes it
synchronously — `stop` returns `Ok(true)` and an immediate `get(id)`
yields no record. -/
theorem stop_deletes_record_with_pid (st : SupState) (id : String) (c : ProxyConfig)
    (pid : Nat) (h : get_proxy_config st.store id = some c) (hp : c.pid = some pid) :
    (stop_proxy_process st id).1 = Except.ok true ∧
    get_proxy_config (stop_proxy_process st id).2.1.store id = none := by
  simp [stop_proxy_process, h, hp, get_delete_none]

theorem stop_deletes_record_with_pid_witness :
    get_proxy_config (SupState.mk [ProxyConfig.mk "p1" "DIRECT" (some 0) none (some 5) none] []).store
        "p1" = some (ProxyConfig.mk "p1" "DIRECT" (some 0) none (some 5) none) ∧
    (ProxyConfig.mk "p1" "DIRECT" (some 0) none (some 5) none).pid = some 5 ∧
    ((stop_proxy_process (SupState.mk [ProxyConfig.mk "p1" "DIRECT" (some 0) none (some 5) none] [])
          "p1").1 = Except.ok true ∧
      get_proxy_config
        (stop_proxy_process (SupState.mk [ProxyConfig.mk "p1" "DIRECT" (some 0) none (some 5) none] [])
            "p1").2.1.store "p1" = none) :=
  ⟨rfl, rfl,
    stop_deletes_record_with_pid
      (SupState.mk [ProxyConfig.mk "p1" "DIRECT" (some 0) none (some 5) none] []) "p1"
      (ProxyConfig.mk "p1" "DIRECT" (some 0) none (some 5) none) 5 rfl rfl⟩

/-! ### Claims about `stop_all_proxy_processes` -/

theorem get_eq_none_iff {s : Store} {id : String} :
    get_proxy_config s id = none ↔ ∀ c ∈ s, c.id ≠ id := by
  simp [get_proxy_config, List.find?_eq_none]

theorem get_mem_of_eq_some {s : Store} {id : String} {c : ProxyConfig}
    (h : get_proxy_config s id = some c) : c ∈ s ∧ c.id = id := by
  unfold get_proxy_config at h
  refine ⟨List.mem_of_find?_eq_some h, ?_⟩
  have h2 := List.find?_some h
  simpa using h2

theorem nodup_ids_inj {s : Store} (h : (s.map (fun c => c.id)).Nodup) :
    ∀ a ∈ s, ∀ b ∈ s, a.id = b.id → a = b := by
  induction s with
  | nil => simp
  | cons x xs ih =>
    simp only [List.map_cons, List.nodup_cons] at h
    obtain ⟨hx, hnd⟩ := h
    intro a ha b hb hab
    rcases List.mem_cons.mp ha with rfl | ha' <;> rcases List.mem_cons.mp hb with rfl | hb'
    · rfl
    · exact absurd (List.mem_map.mpr ⟨b, hb', hab.symm⟩) hx
    · exact absurd (List.mem_map.mpr ⟨a, ha', hab⟩) hx
    · exact ih hnd a ha' b hb' hab

theorem mem_delete_iff {s : Store} {id : String} {r : ProxyConfig} :
    r ∈ delete_proxy_config s id ↔ r ∈ s ∧ r.id ≠ id := by
  simp [delete_proxy_config, List.mem_filter]

theorem nodup_delete {s : Store} {id : String} (h : (s.map (fun x => x.id)).Nodup) :
    ((delete_proxy_config s id).map (fun x => x.id)).Nodup :=
  ((List.filter_sublist s).map (fun x => x.id)).nodup h

theorem stop_all_go_inv (configs : List ProxyConfig) :
    ∀ st : SupState,
      (st.store.map (fun c => c.id)).Nodup →
      (∀ r ∈ st.store, r.pid ≠ none → r ∈ configs) →
      (∀ r ∈ (stop_all_go configs st).1.store, r.pid = none) ∧
      (∀ r ∈ st.store, r.pid = none → r ∈ (stop_all_go configs st).1.store) := by
  induction configs with
  | nil =>
    intro st hnd hcov
    simp only [stop_all_go]
    refine ⟨fun r hr => ?_, fun r hr _ => hr⟩
    by_contra hne
    simpa using hcov r hr hne
  | cons c rest ih =>
    intro st hnd hcov
    simp only [stop_all_go]
    rcases hg : get_proxy_config st.store c.id with _ | r0
    · have hstep : (stop_proxy_process st c.id).2.1 = st := by
        simp [stop_proxy_process, hg]
      rw [hstep]
      refine ih st hnd (fun r hr hp => ?_)
      rcases List.mem_cons.mp (hcov r hr hp) with rfl | h
      · exact absurd rfl ((get_eq_none_iff.mp hg) r hr)
      · exact h
    · rcases hp : r0.pid with _ | pid
      · have hstep : (stop_proxy_process st c.id).2.1 = st := by
          simp [stop_proxy_process, hg, hp]
        rw [hstep]
        refine ih st hnd (fun r hr hpn => ?_)
        rcases List.mem_cons.mp (hcov r hr hpn) with rfl | h
        · obtain ⟨hr0mem, hr0id⟩ := get_mem_of_eq_some hg
          have heq : r0 = r := nodup_ids_inj hnd r0 hr0mem r hr hr0id
          rw [heq] at hp
          exact absurd hp hpn
        · exact h
      · have hstep : (stop_proxy_process st c.id).2.1 =
            SupState.mk (delete_proxy_config st.store c.id) (registry_remove st.registry c.id) := by
          simp [stop_proxy_process, hg, hp]
        rw [hstep]
        obtain ⟨hr0mem, hr0id⟩ := get_mem_of_eq_some hg
        have hnd' : ((delete_proxy_config st.store c.id).map (fun x => x.id)).Nodup :=
          nodup_delete hnd
        have hcov' : ∀ r ∈ delete_proxy_config st.store c.id, r.pid ≠ none → r ∈ rest := by
          intro r hr hpn
          obtain ⟨hrs, hrid⟩ := mem_delete_iff.mp hr
          rcases List.mem_cons.mp (hcov r hrs hpn) with rfl | h
          · exact absurd rfl hrid
          · exact h
        obtain ⟨h1, h2⟩ := ih (SupState.mk (delete_proxy_config st.store c.id)
          (registry_remove st.registry c.id)) hnd' hcov'
        refine ⟨h1, fun r hr hpn => h2 r ?_ hpn⟩
        refine mem_delete_iff.mpr ⟨hr, fun hrid => ?_⟩
        have heq : r = r0 := nodup_ids_inj hnd r hr r0 hr0mem (by rw [hrid, hr0id])
        rw [heq] at hpn
        rw [hp] at hpn
        simp at hpn

/-- Claim C4 counterexample: a Config Store holding one record whose
`pid` is `None` still holds that record after `stop_all`, refuting
"zero remaining records". -/
theorem stop_all_can_leave_records :
    (stop_all_proxy_processes (SupState.mk [ProxyConfig.new "p4" "DIRECT" (some 0)] [])).2.1.store ≠
      [] := by decide

/-- Claim C4 (amended): `stop_all` calls `stop` on each persisted record
independently and always returns `Ok(())`, never propagating a single
worker's failure; afterwards no record with a populated process id
remains in the Config Store — records whose process id was never filled
in survive. -/
theorem stop_all_removes_all_started (st : SupState)
    (hnd : (st.store.map (fun c => c.id)).Nodup) :
    (stop_all_proxy_processes st).1 = Except.ok () ∧
    (∀ c ∈ (stop_all_proxy_processes st).2.1.store, c.pid = none) ∧
    (∀ c ∈ st.store, c.pid = none → c ∈ (stop_all_proxy_processes st).2.1.store) := by
  have h := stop_all_go_inv st.store st hnd (fun r hr _ => hr)
  exact ⟨rfl, h.1, h.2⟩

theorem stop_all_removes_all_started_witness :
    (((SupState.mk [ProxyConfig.mk "a1" "DIRECT" (some 0) none (some 7) none,
        ProxyConfig.new "a2" "DIRECT" (some 0)] []).store.map (fun c => c.id)).Nodup) ∧
    ((stop_all_proxy_processes (SupState.mk
        [ProxyConfig.mk "a1" "DIRECT" (some 0) none (some 7) none,
         ProxyConfig.new "a2" "DIRECT" (some 0)] [])).1 = Except.ok () ∧
      (∀ c ∈ (stop_all_proxy_processes (SupState.mk
          [ProxyConfig.mk "a1" "DIRECT" (some 0) none (some 7) none,
           ProxyConfig.new "a2" "DIRECT" (some 0)] [])).2.1.store, c.pid = none) ∧
      (∀ c ∈ (SupState.mk [ProxyConfig.mk "a1" "DIRECT" (some 0) none (some 7) none,
          ProxyConfig.new "a2" "DIRECT" (some 0)] []).store, c.pid = none →
        c ∈ (stop_all_proxy_processes (SupState.mk
          [ProxyConfig.mk "a1" "DIRECT" (some 0) none (some 7) none,
           ProxyConfig.new "a2" "DIRECT" (some 0)] [])).2.1.store)) :=
  ⟨by decide,
    stop_all_removes_all_started
      (SupState.mk [ProxyConfig.mk "a1" "DIRECT" (some 0) none (some 7) none,
        ProxyConfig.new "a2" "DIRECT" (some 0)] []) (by decide)⟩

/-! ### Claims about `start_proxy_process_with_profile` -/

/-- Claim C6: every `start` call whose spawn succeeds performs, in this
order: generate the fresh identifier, persist the initial record (its
`pid` still absent) before spawning, spawn the worker, insert the
identifier-to-pid entry into the registry cache, re-persist the record
with the spawned pid, and only then run the readiness poller, whose
outcome is the call's result. -/
theorem start_event_order (env : Env) (st : SupState) (id : String)
    (u : Option String) (p : Option Nat) (prof : Option String) (pid : Nat)
    (hs : env.spawnResult = Except.ok pid) :
    (start_proxy_process_with_profile env st id u p prof).2.2 =
      [Event.genId id,
       Event.saveRecord
         ((ProxyConfig.new id (u.getD "DIRECT") (some (p.getD 0))).with_profile_id prof),
       Event.spawn pid,
       Event.registryInsert id pid,
       Event.saveRecord
         { (ProxyConfig.new id (u.getD "DIRECT") (some (p.getD 0))).with_profile_id prof
           with pid := some pid },
       Event.pollRun] ∧
    ((ProxyConfig.new id (u.getD "DIRECT") (some (p.getD 0))).with_profile_id prof).pid = none ∧
    (start_proxy_process_with_profile env st id u p prof).1 =
      poll_go env id 0 (max_attempts_unix - 1) := by
  refine ⟨?_, rfl, ?_⟩ <;> simp [start_proxy_process_with_profile, hs]

theorem start_event_order_witness :
    (Env.mk (Except.ok 4242) (fun _ => none) (fun _ _ => false) (fun _ => false)
        none).spawnResult = Except.ok 4242 ∧
    ((start_proxy_process_with_profile
        (Env.mk (Except.ok 4242) (fun _ => none) (fun _ _ => false) (fun _ => false) none)
        (SupState.mk [] []) "w6" none none none).2.2 =
      [Event.genId "w6",
       Event.saveRecord ((ProxyConfig.new "w6" ((none : Option String).getD "DIRECT")
         (some ((none : Option Nat).getD 0))).with_profile_id none),
       Event.spawn 4242,
       Event.registryInsert "w6" 4242,
       Event.saveRecord
         { (ProxyConfig.new "w6" ((none : Option String).getD "DIRECT")
             (some ((none : Option Nat).getD 0))).with_profile_id none with pid := some 4242 },
       Event.pollRun] ∧
      ((ProxyConfig.new "w6" ((none : Option String).getD "DIRECT")
          (some ((none : Option Nat).getD 0))).with_profile_id none).pid = none ∧
      (start_proxy_process_with_profile
          (Env.mk (Except.ok 4242) (fun _ => none) (fun _ _ => false) (fun _ => false) none)
          (SupState.mk [] []) "w6" none none none).1 =
        poll_go (Env.mk (Except.ok 4242) (fun _ => none) (fun _ _ => false) (fun _ => false) none)
          "w6" 0 (max_attempts_unix - 1)) :=
  ⟨rfl,
    start_event_order
      (Env.mk (Except.ok 4242) (fun _ => none) (fun _ _ => false) (fun _ => false) none)
      (SupState.mk [] []) "w6" none none none 4242 rfl⟩

/-- Claim C9: for every `start` call, the persisted record carries
`upstream_url.unwrap_or("DIRECT")` as its upstream and
`port.unwrap_or(0)` as its requested local port — so whenever no
upstream is given the field is the "DIRECT" sentinel, and whenever no
port is given the requested port is 0, each independently of the other
argument and of spawn success. -/
theorem start_defaults (env : Env) (st : SupState) (id : String)
    (u : Option String) (p : Option Nat) (prof : Option String) :
    ∃ c, get_proxy_config
        (start_proxy_process_with_profile env st id u p prof).2.1.store id = some c ∧
      c.upstream = u.getD "DIRECT" ∧ c.local_port = some (p.getD 0) ∧
      (u = none → c.upstream = "DIRECT") ∧ (p = none → c.local_port = some 0) := by
  rcases hs : env.spawnResult with e | pid
  · refine ⟨(ProxyConfig.new id (u.getD "DIRECT") (some (p.getD 0))).with_profile_id prof,
      ?_, rfl, rfl, fun hu => by subst hu; rfl, fun hp => by subst hp; rfl⟩
    have h := get_save_self st.store
      ((ProxyConfig.new id (u.getD "DIRECT") (some (p.getD 0))).with_profile_id prof)
    simpa [start_proxy_process_with_profile, hs] using h
  · refine ⟨{ (ProxyConfig.new id (u.getD "DIRECT") (some (p.getD 0))).with_profile_id prof
        with pid := some pid },
      ?_, rfl, rfl, fun hu => by subst hu; rfl, fun hp => by subst hp; rfl⟩
    have h := get_save_self
      (save_proxy_config st.store
        ((ProxyConfig.new id (u.getD "DIRECT") (some (p.getD 0))).with_profile_id prof))
      { (ProxyConfig.new id (u.getD "DIRECT") (some (p.getD 0))).with_profile_id prof
        with pid := some pid }
    simpa [start_proxy_process_with_profile, hs] using h

theorem start_defaults_witness :
    ∃ c, get_proxy_config
        (start_proxy_process_with_profile
          (Env.mk (Except.ok 3) (fun _ => none) (fun _ _ => false) (fun _ => false) none)
          (SupState.mk [] []) "w9" (some "http://upstream:8080") none (some "prof1")).2.1.store
        "w9" = some c ∧
      c.upstream = (some "http://upstream:8080").getD "DIRECT" ∧
      c.local_port = some ((none : Option Nat).getD 0) ∧
      (some "http://upstream:8080" = (none : Option String) → c.upstream = "DIRECT") ∧
      ((none : Option Nat) = none → c.local_port = some 0) :=
  start_defaults
    (Env.mk (Except.ok 3) (fun _ => none) (fun _ _ => false) (fun _ => false) none)
    (SupState.mk [] []) "w9" (some "http://upstream:8080") none (some "prof1")

theorem poll_go_never_ready (env : Env) (id : String)
    (hr : ∀ t, poll_ready env t = none) :
    ∀ fuel attempts, poll_go env id attempts fuel =
      Except.error (timeout_message env id (attempts + fuel + 1)) := by
  intro fuel
  induction fuel with
  | zero => intro a; simp [poll_go, hr a]
  | succ f ih =>
    intro a
    simp only [poll_go, hr a]
    rw [show a + (f + 1) + 1 = (a + 1) + f + 1 by omega]
    exact ih (a + 1)

/-- Claim C7: a `start` that fails by readiness timeout leaves all state
in place: the call's result is exactly the timeout error, the record is
still in the Config Store (with the spawned pid), the registry cache
still maps the identifier to that pid, and the supervisor performed no
kill, no record deletion and no registry removal. -/
theorem start_timeout_leaves_state (env : Env) (st : SupState) (id : String)
    (u : Option String) (p : Option Nat) (prof : Option String) (pid : Nat)
    (hs : env.spawnResult = Except.ok pid)
    (hr : ∀ t, poll_ready env t = none) :
    (start_proxy_process_with_profile env st id u p prof).1 =
      Except.error (timeout_message env id 80) ∧
    get_proxy_config (start_proxy_process_with_profile env st id u p prof).2.1.store id =
      some { (ProxyConfig.new id (u.getD "DIRECT") (some (p.getD 0))).with_profile_id prof
             with pid := some pid } ∧
    registry_lookup (start_proxy_process_with_profile env st id u p prof).2.1.registry id =
      some pid ∧
    (∀ q, Event.kill q ∉ (start_proxy_process_with_profile env st id u p prof).2.2) ∧
    Event.deleteRecord id ∉ (start_proxy_process_with_profile env st id u p prof).2.2 ∧
    Event.registryRemove id ∉ (start_proxy_process_with_profile env st id u p prof).2.2 := by
  refine ⟨?_, ?_, ?_, ?_, ?_, ?_⟩
  · have h := poll_go_never_ready env id hr (max_attempts_unix - 1) 0
    simpa [start_proxy_process_with_profile, hs, max_attempts_unix] using h
  · have h := get_save_self
      (save_proxy_config st.store
        ((ProxyConfig.new id (u.getD "DIRECT") (some (p.getD 0))).with_profile_id prof))
      { (ProxyConfig.new id (u.getD "DIRECT") (some (p.getD 0))).with_profile_id prof
        with pid := some pid }
    simpa [start_proxy_process_with_profile, hs] using h
  · have h := registry_lookup_insert st.registry id pid
    simpa [start_proxy_process_with_profile, hs] using h
  · intro q; simp [start_proxy_process_with_profile, hs]
  · simp [start_proxy_process_with_profile, hs]
  · simp [start_proxy_process_with_profile, hs]

theorem start_timeout_leaves_state_witness :
    (Env.mk (Except.ok 7) (fun _ => none) (fun _ _ => false) (fun _ => false)
        none).spawnResult = Except.ok 7 ∧
    (∀ t, poll_ready
      (Env.mk (Except.ok 7) (fun _ => none) (fun _ _ => false) (fun _ => false) none) t = none) ∧
    ((start_proxy_process_with_profile
        (Env.mk (Except.ok 7) (fun _ => none) (fun _ _ => false) (fun _ => false) none)
        (SupState.mk [] []) "w7" none none none).1 =
      Except.error (timeout_message
        (Env.mk (Except.ok 7) (fun _ => none) (fun _ _ => false) (fun _ => false) none) "w7" 80) ∧
      get_proxy_config (start_proxy_process_with_profile
        (Env.mk (Except.ok 7) (fun _ => none) (fun _ _ => false) (fun _ => false) none)
        (SupState.mk [] []) "w7" none none none).2.1.store "w7" =
        some { (ProxyConfig.new "w7" ((none : Option String).getD "DIRECT")
            (some ((none : Option Nat).getD 0))).with_profile_id none with pid := some 7 } ∧
      registry_lookup (start_proxy_process_with_profile
        (Env.mk (Except.ok 7) (fun _ => none) (fun _ _ => false) (fun _ => false) none)
        (SupState.mk [] []) "w7" none none none).2.1.registry "w7" = some 7 ∧
      (∀ q, Event.kill q ∉ (start_proxy_process_with_profile
        (Env.mk (Except.ok 7) (fun _ => none) (fun _ _ => false) (fun _ => false) none)
        (SupState.mk [] []) "w7" none none none).2.2) ∧
      Event.deleteRecord "w7" ∉ (start_proxy_process_with_profile
        (Env.mk (Except.ok 7) (fun _ => none) (fun _ _ => false) (fun _ => false) none)
        (SupState.mk [] []) "w7" none none none).2.2 ∧
      Event.registryRemove "w7" ∉ (start_proxy_process_with_profile
        (Env.mk (Except.ok 7) (fun _ => none) (fun _ _ => false) (fun _ => false) none)
        (SupState.mk [] []) "w7" none none none).2.2) :=
  ⟨rfl, fun _ => rfl,
    start_timeout_leaves_state
      (Env.mk (Except.ok 7) (fun _ => none) (fun _ _ => false) (fun _ => false) none)
      (SupState.mk [] []) "w7" none none none 7 rfl (fun _ => rfl)⟩

theorem poll_ready_some {env : Env} {t : Nat} {cfg : ProxyConfig}
    (h : poll_ready env t = some cfg) :
    (∃ url, cfg.local_url = some url ∧ url ≠ "") ∧ ∃ port, cfg.local_port = some port := by
  unfold poll_ready at h
  split at h
  case h_2 => exact absurd h (by simp)
  case h_1 c hv =>
    split at h
    case h_2 => exact absurd h (by simp)
    case h_1 url hu =>
      split at h
      case isTrue => exact absurd h (by simp)
      case isFalse he =>
        split at h
        case h_2 => exact absurd h (by simp)
        case h_1 port hp =>
          split at h
          case isFalse => exact absurd h (by simp)
          case isTrue hc =>
            obtain rfl := Option.some.inj h
            exact ⟨⟨url, hu, he⟩, port, hp⟩

theorem poll_go_ok {env : Env} {id : String} {cfg : ProxyConfig} :
    ∀ fuel attempts, poll_go env id attempts fuel = Except.ok cfg →
      ∃ t, poll_ready env t = some cfg := by
  intro fuel
  induction fuel with
  | zero =>
    intro a h
    unfold poll_go at h
    rcases hr : poll_ready env a with _ | c <;> rw [hr] at h
    · simp at h
    · simp only [Except.ok.injEq] at h
      exact ⟨a, by rw [hr, h]⟩
  | succ f ih =>
    intro a h
    unfold poll_go at h
    rcases hr : poll_ready env a with _ | c <;> rw [hr] at h
    · exact ih (a + 1) h
    · simp only [Except.ok.injEq] at h
      exact ⟨a, by rw [hr, h]⟩

/-- Claim C1: whenever `start` returns a success result, the returned
record has a non-empty `local_url` and a populated `local_port` — the
success exit exists only after the readiness check saw both fields set
and the port accept a connection. -/
theorem start_success_populated (env : Env) (st : SupState) (id : String)
    (u : Option String) (p : Option Nat) (prof : Option String) (cfg : ProxyConfig)
    (h : (start_proxy_process_with_profile env st id u p prof).1 = Except.ok cfg) :
    (∃ url, cfg.local_url = some url ∧ url ≠ "") ∧ ∃ port, cfg.local_port = some port := by
  rcases hs : env.spawnResult with e | pid
  · simp [start_proxy_process_with_profile, hs] at h
  · simp only [start_proxy_process_with_profile, hs] at h
    obtain ⟨t, ht⟩ := poll_go_ok _ _ h
    exact poll_ready_some ht

theorem start_success_populated_witness :
    (start_proxy_process_with_profile
        (Env.mk (Except.ok 7)
          (fun _ => some (ProxyConfig.mk "w1" "DIRECT" (some 5123)
            (some "http://127.0.0.1:5123") (some 7) none))
          (fun _ _ => true) (fun _ => true) none)
        (SupState.mk [] []) "w1" none none none).1 =
      Except.ok (ProxyConfig.mk "w1" "DIRECT" (some 5123)
        (some "http://127.0.0.1:5123") (some 7) none) ∧
    ((∃ url, (ProxyConfig.mk "w1" "DIRECT" (some 5123)
        (some "http://127.0.0.1:5123") (some 7) none).local_url = some url ∧ url ≠ "") ∧
      ∃ port, (ProxyConfig.mk "w1" "DIRECT" (some 5123)
        (some "http://127.0.0.1:5123") (some 7) none).local_port = some port) :=
  ⟨rfl,
    start_success_populated
      (Env.mk (Except.ok 7)
        (fun _ => some (ProxyConfig.mk "w1" "DIRECT" (some 5123)
          (some "http://127.0.0.1:5123") (some 7) none))
        (fun _ _ => true) (fun _ => true) none)
      (SupState.mk [] []) "w1" none none none
      (ProxyConfig.mk "w1" "DIRECT" (some 5123) (some "http://127.0.0.1:5123") (some 7) none)
      rfl⟩

theorem last_lines_of_eq_drop (l : List String) (n : Nat) :
    last_lines_of l n = l.drop (l.length - n) := by
  unfold last_lines_of
  rw [List.take_reverse, List.reverse_reverse]

/-- Claim C5: when readiness never arrives within the budget, the record
is still fetchable under the worker's identifier, and the log file
exists with 15 lines, `start` returns the timeout error, whose message
embeds the identifier and embeds, verbatim between the log markers,
exactly the last 10 of the 15 log lines. -/
theorem start_timeout_embeds_diagnostics (env : Env) (st : SupState) (id : String)
    (u : Option String) (p : Option Nat) (prof : Option String)
    (pid : Nat) (config : ProxyConfig) (s : String)
    (hs : env.spawnResult = Except.ok pid)
    (hr : ∀ t, poll_ready env t = none)
    (hv : env.workerView 80 = some config)
    (hid : config.id = id)
    (hlog : env.logFile = some (Except.ok s))
    (hlen : (rustLines s).length = 15) :
    (start_proxy_process_with_profile env st id u p prof).1 =
      Except.error (timeout_message env id 80) ∧
    substring_of id (timeout_message env id 80) ∧
    substring_of
      ("\n--- Last 10 lines of worker log ---\n" ++
        String.intercalate "\n" ((rustLines s).drop 5) ++ "\n--- End of log ---")
      (timeout_message env id 80) := by
  have hmsg : timeout_message env id 80 =
      "Proxy worker failed to start in time after " ++ toString (80 : Nat) ++
        " attempts. Config: id=" ++ id ++
        ", local_url=" ++ debug_opt_string config.local_url ++
        ", local_port=" ++ debug_opt_nat config.local_port ++
        ", pid=" ++ debug_opt_nat config.pid ++
        ", process_running=" ++ toString ((config.pid.map env.processRunning).getD false) ++
        ("\n--- Last 10 lines of worker log ---\n" ++
          String.intercalate "\n" ((rustLines s).drop 5) ++ "\n--- End of log ---") := by
    simp only [timeout_message, hv, hid, hlog, log_diagnostic, last_lines_of_eq_drop, hlen]
  refine ⟨?_, ?_, ?_⟩
  · have h := poll_go_never_ready env id hr (max_attempts_unix - 1) 0
    simpa [start_proxy_process_with_profile, hs, max_attempts_unix] using h
  · refine ⟨"Proxy worker failed to start in time after " ++ toString (80 : Nat) ++
      " attempts. Config: id=",
      ", local_url=" ++ debug_opt_string config.local_url ++
        ", local_port=" ++ debug_opt_nat config.local_port ++
        ", pid=" ++ debug_opt_nat config.pid ++
        ", process_running=" ++ toString ((config.pid.map env.processRunning).getD false) ++
        ("\n--- Last 10 lines of worker log ---\n" ++
          String.intercalate "\n" ((rustLines s).drop 5) ++ "\n--- End of log ---"), ?_⟩
    rw [hmsg]
    simp [String.append_assoc]
  · refine ⟨"Proxy worker failed to start in time after " ++ toString (80 : Nat) ++
      " attempts. Config: id=" ++ id ++
        ", local_url=" ++ debug_opt_string config.local_url ++
        ", local_port=" ++ debug_opt_nat config.local_port ++
        ", pid=" ++ debug_opt_nat config.pid ++
        ", process_running=" ++ toString ((config.pid.map env.processRunning).getD false),
      "", ?_⟩
    rw [hmsg]
    simp [String.append_assoc]

/-- A 15-line log file content used to exercise the timeout diagnostic. -/
def logC5 : String :=
  "l01\nl02\nl03\nl04\nl05\nl06\nl07\nl08\nl09\nl10\nl11\nl12\nl13\nl14\nl15"

/-- An environment in which the worker record never becomes ready and
the log file holds `logC5`. -/
def envC5 : Env :=
  Env.mk (Except.ok 9)
    (fun _ => some (ProxyConfig.mk "w5" "DIRECT" (some 0) none (some 9) none))
    (fun _ _ => false) (fun _ => false) (some (Except.ok logC5))

theorem start_timeout_embeds_diagnostics_witness :
    envC5.spawnResult = Except.ok 9 ∧
    (∀ t, poll_ready envC5 t = none) ∧
    envC5.workerView 80 = some (ProxyConfig.mk "w5" "DIRECT" (some 0) none (some 9) none) ∧
    (ProxyConfig.mk "w5" "DIRECT" (some 0) none (some 9) none).id = "w5" ∧
    envC5.logFile = some (Except.ok logC5) ∧
    (rustLines logC5).length = 15 ∧
    ((start_proxy_process_with_profile envC5 (SupState.mk [] []) "w5" none none none).1 =
        Except.error (timeout_message envC5 "w5" 80) ∧
      substring_of "w5" (timeout_message envC5 "w5" 80) ∧
      substring_of
        ("\n--- Last 10 lines of worker log ---\n" ++
          String.intercalate "\n" ((rustLines logC5).drop 5) ++ "\n--- End of log ---")
        (timeout_message envC5 "w5" 80)) :=
  ⟨rfl, fun _ => rfl, rfl, rfl, rfl, by decide,
    start_timeout_embeds_diagnostics envC5 (SupState.mk [] []) "w5" none none none 9
      (ProxyConfig.mk "w5" "DIRECT" (some 0) none (some 9) none) logC5
      rfl (fun _ => rfl) rfl rfl rfl (by decide)⟩
